import Mathlib

/-!
# goWeb3: a shallow embedding of `web3.go`

The Go file `web3.go` is a thin client over an Ethereum JSON-RPC transport.  Its
own logic is control flow around calls into other packages (`strings`, `abi`,
`common`, `types`, `encoding/json`, `logrus` and the repository's `helper`
package).  Those calls are collected in the record `World`; every function of
`web3.go` is a Lean function of a `World`, the client state it receives through
its pointer receiver, and its arguments.

Conventions:

* a Go `error` is `Option String` (`none` is `nil`);
* a Go `map[string]V` is an association list read by `mapLookup` (the
  comma-ok form); the single-value form falls back on the zero value;
* a variadic parameter `args ...interface{}` is `Option (List Val)`: `none` is the
  `nil` slice a call without variadic arguments receives, `some xs` a non-nil slice;
* `*big.Int` and `*SendTxParams` arguments are taken non-nil;
* calls that leave the process (the packer, the signer and the RPC transport)
  are recorded, in order, in a trace of `Event`s;
* `logrus.Fatalf` ends the process (the default `ExitFunc`): `Outcome.exit`.
-/

namespace GoWeb3

/-! ## Data -/

abbrev Byte := Fin 256

abbrev Bytes := List Byte

/-- A Go `error` value; `none` is `nil`. -/
abbrev GoError := Option String

/-- A dynamically typed Go value (`interface{}`), as far as the argument lists
of `Call` and `Send` need it: a slice of values is itself a value. -/
inductive Val where
  | str (s : String)
  | int (n : Int)
  | slice (xs : List Val)

/-- Variadic `args ...interface{}`: `none` is the `nil` slice. -/
abbrev Variadic := Option (List Val)

/-- Comma-ok map read `v, ok := m[k]`. -/
def mapLookup {V : Type} (m : List (String × V)) (k : String) : Option V :=
  match m with
  | [] => none
  | (k', v) :: rest => if k' = k then some v else mapLookup rest k

/-- Map write `m[k] = v`: an earlier binding of `k` is replaced. -/
def mapSet {V : Type} (m : List (String × V)) (k : String) (v : V) : List (String × V) :=
  (k, v) :: m.filter (fun p => decide (p.1 ≠ k))

/-- Struct `abi.Method`, by the fields its selector is computed from. -/
structure Method where
  Name : String
  Inputs : List String
deriving DecidableEq, Repr

/-- The zero value of `abi.Method`, which indexing `Methods` with an absent key yields. -/
def Method.zero : Method := ⟨"", []⟩

/-- Struct `abi.ABI`: the parsed interface, a map from function name to method. -/
structure ABI where
  Methods : List (String × Method)
deriving DecidableEq, Repr

/-- Single-value map read `abi.Methods[name]`. -/
def ABI.method (a : ABI) (name : String) : Method :=
  (mapLookup a.Methods name).getD Method.zero

/-- Type `common.Address`: twenty bytes. -/
structure Address where
  bytes : Bytes
deriving DecidableEq, Repr

/-- Struct `helper.T`, the request of `eth_call`, by the fields `HistoryCall` sets. -/
structure T where
  To : String
  From : String
  Data : String
deriving DecidableEq, Repr

/-- Struct `types.Transaction`, by the arguments of `types.NewTransaction`. -/
structure Transaction where
  Nonce : Nat
  To : Address
  Amount : Int
  GasLimit : Nat
  GasPrice : Int
  Data : Bytes
deriving DecidableEq, Repr

/-- Struct `SendTxParams`. -/
structure SendTxParams where
  FromAddress : String
  GasLimit : Int
  GasPrice : Int
  Nonce : Nat
deriving DecidableEq, Repr

/-- Struct `ecdsa.PublicKey`. -/
structure PublicKey where
  X : Int
  Y : Int
deriving DecidableEq, Repr

/-- Struct `ecdsa.PrivateKey`. -/
structure PrivateKey where
  PublicKey : PublicKey
  D : Int
deriving DecidableEq, Repr

/-- A `float64`, by its IEEE-754 bit pattern; the zero value `+0.0` is pattern `0`. -/
structure Float64 where
  bits : Nat
deriving DecidableEq, Repr

/-- The anonymous struct `dataContainer` of `GetGasPriceGwei`. -/
structure GasData where
  Fast : Float64
  Fastest : Float64
  SafeLow : Float64
  Average : Float64
deriving DecidableEq, Repr

/-- The zero value of `dataContainer` (`var dataContainer struct{...}`). -/
def GasData.zero : GasData := ⟨⟨0⟩, ⟨0⟩, ⟨0⟩, ⟨0⟩⟩

/-- Struct `Web3` without its transport (`Rpc` lives in `World`). -/
structure Web3 where
  Accounts : List String
  privateKeyMap : List (String × String)
deriving DecidableEq, Repr

/-- Struct `Contract`; its `web3` pointer is the client state passed alongside. -/
structure Contract where
  abi : ABI
  address : Address
deriving DecidableEq, Repr

/-- A call that leaves `web3.go`, as it appears in a trace. -/
inductive Event where
  | pack (name : String) (args : List Val)
  | signTx (key : String) (chainId : String) (tx : Transaction)
  | ethCall (t : T) (blockNum : String)
  | sendRaw (rawData : String)

/-- Whether the event is an RPC request to the node. -/
def Event.isRpc : Event → Bool
  | .ethCall _ _ => true
  | .sendRaw _ => true
  | _ => false

/-- Whether the event is `EthSendRawTransaction`. -/
def Event.isSendRaw : Event → Bool
  | .sendRaw _ => true
  | _ => false

/-- Whether the event is a call of `abi.Pack`. -/
def Event.isPack : Event → Bool
  | .pack _ _ => true
  | _ => false

/-- How a function ends: it returns, or `logrus.Fatalf` ends the process. -/
inductive Outcome (α : Type) where
  | ret (a : α)
  | exit (msg : String)
deriving DecidableEq, Repr

/-- The result of running a method of the client: how it ended, the client
state afterwards and the external calls it made, in order. -/
structure Run (α : Type) where
  out : Outcome α
  web3 : Web3
  trace : List Event

/-- Everything `web3.go` calls but does not define. -/
structure World where
  /-- Function `strings.ToLower`. -/
  ToLower : String → String
  /-- Function `helper.NewPrivateKeyByHex`. -/
  NewPrivateKeyByHex : String → Except String PrivateKey
  /-- Function `helper.PubKey2Address`. -/
  PubKey2Address : PublicKey → String
  /-- Function `abi.JSON` on the text of the reader. -/
  JSON : String → Except String ABI
  /-- Function `common.HexToAddress`; its Go type has no error result. -/
  HexToAddress : String → Address
  /-- Method `common.Address.String`. -/
  AddressString : Address → String
  /-- Method `abi.ABI.Pack`. -/
  Pack : ABI → String → List Val → Except String Bytes
  /-- Method `abi.Method.ID`, the selector. -/
  ID : Method → Bytes
  /-- Function `helper.SignTx`; both results are kept, as in Go. -/
  SignTx : String → String → Transaction → String × GoError
  /-- Method `helper.EthRPC.EthCall`. -/
  EthCall : T → String → String × GoError
  /-- Method `helper.EthRPC.EthSendRawTransaction`. -/
  EthSendRawTransaction : String → String × GoError
  /-- The environment variable `NETWORK`; `none` when unset. -/
  NETWORK : Option String
  /-- The result of `helper.Get` on the gas station URL. -/
  Get : String × GoError
  /-- Function `json.Unmarshal` into the `dataContainer` struct. -/
  Unmarshal : String → GasData → GasData × GoError
  /-- The expression `int64(x / 10)` on a `float64`. -/
  TruncDiv10 : Float64 → Int

/-! ## Formatting -/

/-- One lower-case hexadecimal digit. -/
def hexDigit (n : Nat) : Char :=
  match n % 16 with
  | 0 => '0' | 1 => '1' | 2 => '2' | 3 => '3' | 4 => '4' | 5 => '5' | 6 => '6' | 7 => '7'
  | 8 => '8' | 9 => '9' | 10 => 'a' | 11 => 'b' | 12 => 'c' | 13 => 'd' | 14 => 'e'
  | _ => 'f'

/-- The verb `%x` on a byte slice: two lower-case digits per byte. -/
def hexChars : Bytes → List Char
  | [] => []
  | b :: rest => hexDigit (b.val / 16) :: hexDigit b.val :: hexChars rest

/-- The expression `fmt.Sprintf("0x%x", dataByte)`. -/
def sprintf0x (dataByte : Bytes) : String :=
  "0x" ++ String.mk (hexChars dataByte)

/-- Method `big.Int.Uint64`: the low 64 bits of the magnitude. -/
def Uint64 (x : Int) : Nat := x.natAbs % 2 ^ 64

/-- Function `os.Getenv`: the empty string when the variable is unset. -/
def Getenv (v : Option String) : String := v.getD ""

/-! ## The functions of `web3.go` -/

/-- Function `GetChainId`. -/
def GetChainId (world : World) : Outcome String :=
  let network := Getenv world.NETWORK
  if network = "mainnet" then .ret "1"
  else if network = "kovan" then .ret "42"
  else .exit (network ++ " network not support")

/-- Method `Web3.AddAccount`: the results and the client state afterwards. -/
def AddAccount (world : World) (w : Web3) (privateKey : String) : (String × GoError) × Web3 :=
  match world.NewPrivateKeyByHex privateKey with
  | .error e => (("", some e), w)
  | .ok pk =>
    let accountAddress := world.ToLower (world.PubKey2Address pk.PublicKey)
    ((accountAddress, none),
      { Accounts := w.Accounts ++ [accountAddress],
        privateKeyMap := mapSet w.privateKeyMap accountAddress (world.ToLower privateKey) })

/-- Method `Web3.NewContract`: the contract (a `nil` pointer is `none`) and the error. -/
def NewContract (world : World) (abiStr : String) (address : String) : Option Contract × GoError :=
  match world.JSON abiStr with
  | .error e => (none, some e)
  | .ok abi =>
    let commonAddress := world.HexToAddress address
    (some { abi := abi, address := commonAddress }, none)

/-- Method `Contract.HistoryCall`. -/
def HistoryCall (world : World) (w : Web3) (c : Contract) (blockNum : String)
    (functionName : String) (args : Variadic) : Run (String × GoError) :=
  let request (dataByte : Bytes) : T :=
    { To := world.AddressString c.address,
      From := "0x0000000000000000000000000000000000000000",
      Data := sprintf0x dataByte }
  match args with
  | some xs =>
    match world.Pack c.abi functionName xs with
    | .error e => { out := .ret ("", some e), web3 := w, trace := [.pack functionName xs] }
    | .ok dataByte =>
      { out := .ret (world.EthCall (request dataByte) blockNum), web3 := w,
        trace := [.pack functionName xs, .ethCall (request dataByte) blockNum] }
  | none =>
    let dataByte := world.ID (c.abi.method functionName)
    { out := .ret (world.EthCall (request dataByte) blockNum), web3 := w,
      trace := [.ethCall (request dataByte) blockNum] }

/-- Method `Contract.Call`.  In the first branch the slice `args` is passed as
ONE variadic argument (the source has `args`, not `args...`). -/
def Call (world : World) (w : Web3) (c : Contract) (functionName : String)
    (args : Variadic) : Run (String × GoError) :=
  match args with
  | some xs => HistoryCall world w c "latest" functionName (some [Val.slice xs])
  | none => HistoryCall world w c "latest" functionName none

/-- Method `Contract.Send`.  The second result of `helper.SignTx` is dropped
(`rawData, _ :=`) and its first result is submitted. -/
def Send (world : World) (w : Web3) (c : Contract) (params : SendTxParams) (value : Int)
    (functionName : String) (args : Variadic) : Run (String × GoError) :=
  match mapLookup w.privateKeyMap (world.ToLower params.FromAddress) with
  | none => { out := .ret ("", some "ACCOUNT_NOT_VALID"), web3 := w, trace := [] }
  | some _ =>
    let xs := args.getD []
    match world.Pack c.abi functionName xs with
    | .error e => { out := .ret ("", some e), web3 := w, trace := [.pack functionName xs] }
    | .ok data =>
      let tx : Transaction :=
        { Nonce := params.Nonce, To := c.address, Amount := value,
          GasLimit := Uint64 params.GasLimit, GasPrice := params.GasPrice, Data := data }
      let key := (mapLookup w.privateKeyMap (world.ToLower params.FromAddress)).getD ""
      match GetChainId world with
      | .exit msg => { out := .exit msg, web3 := w, trace := [.pack functionName xs] }
      | .ret chainId =>
        let rawData := (world.SignTx key chainId tx).1
        { out := .ret (world.EthSendRawTransaction rawData), web3 := w,
          trace := [.pack functionName xs, .signTx key chainId tx, .sendRaw rawData] }

/-- Method `Web3.TransferEth`.  There is no account check; the second result of
`helper.SignTx` is dropped as in `Send`. -/
def TransferEth (world : World) (w : Web3) (params : SendTxParams) (to_ : String)
    (value : Int) : Run (String × GoError) :=
  let tx : Transaction :=
    { Nonce := params.Nonce, To := world.HexToAddress to_, Amount := value,
      GasLimit := Uint64 params.GasLimit, GasPrice := params.GasPrice, Data := [] }
  let key := (mapLookup w.privateKeyMap (world.ToLower params.FromAddress)).getD ""
  match GetChainId world with
  | .exit msg => { out := .exit msg, web3 := w, trace := [] }
  | .ret chainId =>
    let rawData := (world.SignTx key chainId tx).1
    { out := .ret (world.EthSendRawTransaction rawData), web3 := w,
      trace := [.signTx key chainId tx, .sendRaw rawData] }

/-- Function `GetGasPriceGwei`. -/
def GetGasPriceGwei (world : World) : Int :=
  match world.Get with
  | (_, some _) => 30
  | (resp, none) =>
    let dataContainer := (world.Unmarshal resp GasData.zero).1
    world.TruncDiv10 dataContainer.Fast

/-! ## A small world for the examples -/

/-- Lower-casing of ASCII letters, which is what `strings.ToLower` does on hex strings. -/
def asciiLower (s : String) : String := String.mk (s.data.map Char.toLower)

/-- The spec's canonical address form: `0x` followed by forty hexadecimal digits. -/
def isCanonicalAddress (s : String) : Bool :=
  match s.data with
  | '0' :: 'x' :: digits =>
    decide (digits.length = 40) && digits.all (fun ch => ch.isDigit || ('a' ≤ ch && ch ≤ 'f')
      || ('A' ≤ ch && ch ≤ 'F'))
  | _ => false

/-- The interface of the examples: `totalSupply()` and `balanceOf(address)`. -/
def demoABI : ABI :=
  ⟨[("totalSupply", ⟨"totalSupply", []⟩), ("balanceOf", ⟨"balanceOf", ["address"]⟩)]⟩

/-- Selectors of the example interface (the first four bytes of the Keccak hash
of the signature); `0x861731d5` is the selector of the empty signature `()`. -/
def demoID (m : Method) : Bytes :=
  if m.Name = "totalSupply" then [0x18, 0x16, 0x0d, 0xdd]
  else if m.Name = "balanceOf" then [0x70, 0xa0, 0x82, 0x31]
  else [0x86, 0x17, 0x31, 0xd5]

/-- Whether a value can be packed as an argument of the given ABI type: a
string stands for an address, an integer for a number, a slice for neither. -/
def demoFits : String → Val → Bool
  | "address", .str _ => true
  | "uint256", .int _ => true
  | _, _ => false

/-- One 32-byte word per argument (the payload itself does not matter here). -/
def demoWords (xs : List Val) : Bytes :=
  List.replicate (32 * xs.length) 0

/-- A packer that, as `abi.Pack` does, rejects an unknown name, a wrong number
of arguments and an argument of the wrong kind, and else returns the selector
followed by the argument words. -/
def demoPack (abi : ABI) (name : String) (xs : List Val) : Except String Bytes :=
  match mapLookup abi.Methods name with
  | none => .error "method not found"
  | some m =>
    if xs.length ≠ m.Inputs.length then .error "argument count mismatch"
    else if (List.zipWith demoFits m.Inputs xs).all id then .ok (demoID m ++ demoWords xs)
    else .error "abi: cannot use argument as type"

/-- The example world: network `mainnet`, one parsable private key, a node that
answers every request, and an oracle whose body is not JSON. -/
def demoWorld : World where
  ToLower := asciiLower
  NewPrivateKeyByHex := fun s =>
    if asciiLower s = "0xa1" then .ok ⟨⟨7, 9⟩, 161⟩ else .error "invalid hex string"
  PubKey2Address := fun _ => "0xAbCdEF0000000000000000000000000000000001"
  JSON := fun s => if s = "demo" then .ok demoABI else .error "invalid character"
  HexToAddress := fun s =>
    if s = "0x00000000000000000000000000000000000000aa"
    then ⟨List.replicate 19 0 ++ [0xaa]⟩ else ⟨List.replicate 20 0⟩
  AddressString := fun a =>
    if a = ⟨List.replicate 19 0 ++ [0xaa]⟩
    then "0x00000000000000000000000000000000000000aA"
    else "0x0000000000000000000000000000000000000000"
  Pack := demoPack
  ID := demoID
  SignTx := fun key _ _ => if key = "" then ("", some "invalid length") else ("0xf86b", none)
  EthCall := fun _ _ => ("0x01", none)
  EthSendRawTransaction := fun _ => ("0xabc0", none)
  NETWORK := some "mainnet"
  Get := ("<html>busy</html>", none)
  Unmarshal := fun body d =>
    if body = "\x7b\"fast\": 123.4\x7d" then ({ d with Fast := ⟨0x405ed9999999999a⟩ }, none)
    else (d, some "invalid character looking for beginning of value")
  TruncDiv10 := fun x => if x = ⟨0x405ed9999999999a⟩ then 12 else 0

/-- The example world with a signer that always fails. -/
def brokenSignerWorld : World :=
  { demoWorld with SignTx := fun _ _ _ => ("", some "signing failed") }

/-- The client after `AddAccount("0xA1")` in the example world. -/
def demoWeb3 : Web3 :=
  { Accounts := ["0xabcdef0000000000000000000000000000000001"],
    privateKeyMap := [("0xabcdef0000000000000000000000000000000001", "0xa1")] }

/-- The example contract. -/
def demoContract : Contract :=
  { abi := demoABI, address := ⟨List.replicate 19 0 ++ [0xaa]⟩ }

/-- Send parameters of the examples, from the registered account in mixed case. -/
def demoParams : SendTxParams :=
  { FromAddress := "0xABCDEF0000000000000000000000000000000001",
    GasLimit := 21000, GasPrice := 1000000000, Nonce := 0 }

/-! ## Lemmas on maps -/

theorem mapLookup_mapSet_self {V : Type} (m : List (String × V)) (k : String) (v : V) :
    mapLookup (mapSet m k v) k = some v := by
  simp [mapSet, mapLookup]

/-! ## Lemmas on the write path -/

theorem Uint64_of_inRange (g : Int) (h0 : 0 ≤ g) (h1 : g < 2 ^ 64) : Uint64 g = g.toNat := by
  unfold Uint64
  have hlt : g.natAbs < 2 ^ 64 := by omega
  rw [Nat.mod_eq_of_lt hlt]
  omega

/-- Past the account check and the packer, with a chain id at hand, `Send`
signs, keeps only the first result of the signer and submits it. -/
theorem Send_past_packer (world : World) (w : Web3) (c : Contract) (params : SendTxParams)
    (value : Int) (functionName : String) (args : Variadic) (key chainId : String)
    (data : Bytes)
    (hkey : mapLookup w.privateKeyMap (world.ToLower params.FromAddress) = some key)
    (hpack : world.Pack c.abi functionName (args.getD []) = .ok data)
    (hchain : GetChainId world = .ret chainId) :
    Send world w c params value functionName args =
      { out := .ret (world.EthSendRawTransaction (world.SignTx key chainId
          ⟨params.Nonce, c.address, value, Uint64 params.GasLimit, params.GasPrice, data⟩).1),
        web3 := w,
        trace := [.pack functionName (args.getD []),
          .signTx key chainId
            ⟨params.Nonce, c.address, value, Uint64 params.GasLimit, params.GasPrice, data⟩,
          .sendRaw (world.SignTx key chainId
            ⟨params.Nonce, c.address, value, Uint64 params.GasLimit, params.GasPrice, data⟩).1] } := by
  simp [Send, hkey, hpack, hchain]

/-- With a chain id at hand, `TransferEth` signs with whatever the key map
holds for the sender, keeps only the first result of the signer and submits it. -/
theorem TransferEth_run (world : World) (w : Web3) (params : SendTxParams) (to_ : String)
    (value : Int) (chainId : String) (hchain : GetChainId world = .ret chainId) :
    TransferEth world w params to_ value =
      { out := .ret (world.EthSendRawTransaction (world.SignTx
          ((mapLookup w.privateKeyMap (world.ToLower params.FromAddress)).getD "") chainId
          ⟨params.Nonce, world.HexToAddress to_, value, Uint64 params.GasLimit,
            params.GasPrice, []⟩).1),
        web3 := w,
        trace := [.signTx
            ((mapLookup w.privateKeyMap (world.ToLower params.FromAddress)).getD "") chainId
            ⟨params.Nonce, world.HexToAddress to_, value, Uint64 params.GasLimit,
              params.GasPrice, []⟩,
          .sendRaw (world.SignTx
            ((mapLookup w.privateKeyMap (world.ToLower params.FromAddress)).getD "") chainId
            ⟨params.Nonce, world.HexToAddress to_, value, Uint64 params.GasLimit,
              params.GasPrice, []⟩).1] } := by
  simp [TransferEth, hchain]

/-! ## The claims -/

/-- C1: when the lower-cased `FromAddress` is not a key of `privateKeyMap`,
`Send` returns the error `ACCOUNT_NOT_VALID` with an empty response, makes no
external call at all (no packing, no signing, no RPC request) and leaves the
client state as it was. -/
theorem Send_unregistered_fails_fast (world : World) (w : Web3) (c : Contract)
    (params : SendTxParams) (value : Int) (functionName : String) (args : Variadic)
    (h : mapLookup w.privateKeyMap (world.ToLower params.FromAddress) = none) :
    (Send world w c params value functionName args).out = .ret ("", some "ACCOUNT_NOT_VALID") ∧
    (Send world w c params value functionName args).trace = [] ∧
    (Send world w c params value functionName args).web3 = w := by
  simp [Send, h]

/-- The fail-fast path of `Send` on an empty key map in the example world. -/
theorem Send_unregistered_fails_fast_witness :
    mapLookup ({ Accounts := [], privateKeyMap := [] } : Web3).privateKeyMap
        (demoWorld.ToLower demoParams.FromAddress) = none ∧
    (Send demoWorld ⟨[], []⟩ demoContract demoParams 0 "balanceOf" (some [.str "0x01"])).out
        = .ret ("", some "ACCOUNT_NOT_VALID") ∧
    (Send demoWorld ⟨[], []⟩ demoContract demoParams 0 "balanceOf" (some [.str "0x01"])).trace
        = [] ∧
    (Send demoWorld ⟨[], []⟩ demoContract demoParams 0 "balanceOf" (some [.str "0x01"])).web3
        = ⟨[], []⟩ :=
  ⟨rfl, Send_unregistered_fails_fast demoWorld ⟨[], []⟩ demoContract demoParams 0 "balanceOf"
    (some [.str "0x01"]) rfl⟩

/-- C2: when `helper.NewPrivateKeyByHex` parses `k`, `AddAccount(k)` returns, with
a nil error, the lower-cased address derived from the public key; afterwards the
lookup of `Send` and `TransferEth`, `privateKeyMap[ToLower(b)]`, is found and
yields `ToLower(k)` for every `b` whose lower-case form is that address, and for
the address itself as soon as `ToLower` fixes lower-cased strings. -/
theorem AddAccount_registers_lowercased (world : World) (w : Web3) (k : String)
    (pk : PrivateKey) (h : world.NewPrivateKeyByHex k = .ok pk) :
    (AddAccount world w k).1 = (world.ToLower (world.PubKey2Address pk.PublicKey), none) ∧
    (∀ b : String, world.ToLower b = (AddAccount world w k).1.1 →
      mapLookup (AddAccount world w k).2.privateKeyMap (world.ToLower b)
        = some (world.ToLower k)) ∧
    ((∀ s : String, world.ToLower (world.ToLower s) = world.ToLower s) →
      mapLookup (AddAccount world w k).2.privateKeyMap
        (world.ToLower (AddAccount world w k).1.1) = some (world.ToLower k)) := by
  have hrun : AddAccount world w k =
      ((world.ToLower (world.PubKey2Address pk.PublicKey), none),
        { Accounts := w.Accounts ++ [world.ToLower (world.PubKey2Address pk.PublicKey)],
          privateKeyMap := mapSet w.privateKeyMap
            (world.ToLower (world.PubKey2Address pk.PublicKey)) (world.ToLower k) }) := by
    simp [AddAccount, h]
  rw [hrun]
  refine ⟨rfl, ?_, ?_⟩
  · intro b hb
    rw [hb]
    exact mapLookup_mapSet_self _ _ _
  · intro hidem
    rw [hidem]
    exact mapLookup_mapSet_self _ _ _

/-- Registering the key `0xA1` in the example world and looking it up in upper case. -/
theorem AddAccount_registers_lowercased_witness :
    demoWorld.NewPrivateKeyByHex "0xA1" = .ok ⟨⟨7, 9⟩, 161⟩ ∧
    (AddAccount demoWorld ⟨[], []⟩ "0xA1").1
      = ("0xabcdef0000000000000000000000000000000001", none) ∧
    mapLookup (AddAccount demoWorld ⟨[], []⟩ "0xA1").2.privateKeyMap
      (demoWorld.ToLower "0xABCDEF0000000000000000000000000000000001") = some "0xa1" :=
  ⟨rfl,
   (AddAccount_registers_lowercased demoWorld ⟨[], []⟩ "0xA1" ⟨⟨7, 9⟩, 161⟩ rfl).1,
   (AddAccount_registers_lowercased demoWorld ⟨[], []⟩ "0xA1" ⟨⟨7, 9⟩, 161⟩ rfl).2.1
     "0xABCDEF0000000000000000000000000000000001" (by decide)⟩

/-- C3: when `FromAddress` is registered with key `key`, the packer returns
`data`, `0 <= GasLimit < 2^64`, `GetChainId` returns `chainId` and the signer
returns `rawData` with a nil error, `Send` packs once, signs once the transaction
(nonce, contract address, value, gas limit, gas price, data) under `key` and
`chainId`, makes exactly one `EthSendRawTransaction` call, on `rawData`, returns
what that call returns and leaves the client state as it was. -/
theorem Send_submits_signed_transaction (world : World) (w : Web3) (c : Contract)
    (params : SendTxParams) (value : Int) (functionName : String) (args : Variadic)
    (key chainId rawData : String) (data : Bytes)
    (hkey : mapLookup w.privateKeyMap (world.ToLower params.FromAddress) = some key)
    (hpack : world.Pack c.abi functionName (args.getD []) = .ok data)
    (hgas : 0 ≤ params.GasLimit ∧ params.GasLimit < 2 ^ 64)
    (hchain : GetChainId world = .ret chainId)
    (hsign : world.SignTx key chainId
      ⟨params.Nonce, c.address, value, params.GasLimit.toNat, params.GasPrice, data⟩
        = (rawData, none)) :
    (Send world w c params value functionName args).trace =
      [.pack functionName (args.getD []),
       .signTx key chainId
         ⟨params.Nonce, c.address, value, params.GasLimit.toNat, params.GasPrice, data⟩,
       .sendRaw rawData] ∧
    ((Send world w c params value functionName args).trace.filter Event.isSendRaw).length = 1 ∧
    (Send world w c params value functionName args).out
      = .ret (world.EthSendRawTransaction rawData) ∧
    (Send world w c params value functionName args).web3 = w ∧
    (params.GasLimit.toNat : Int) = params.GasLimit := by
  rw [Send_past_packer world w c params value functionName args key chainId data hkey hpack
    hchain, Uint64_of_inRange _ hgas.1 hgas.2, hsign]
  refine ⟨rfl, ?_, rfl, rfl, Int.toNat_of_nonneg hgas.1⟩
  simp [Event.isSendRaw]

/-- A `balanceOf` transaction sent from the registered account of the example world. -/
theorem Send_submits_signed_transaction_witness :
    (Send demoWorld demoWeb3 demoContract demoParams 0 "balanceOf" (some [.str "0x01"])).trace =
      [.pack "balanceOf" [.str "0x01"],
       .signTx "0xa1" "1" ⟨0, demoContract.address, 0, 21000, 1000000000,
         [0x70, 0xa0, 0x82, 0x31] ++ List.replicate 32 0⟩,
       .sendRaw "0xf86b"] ∧
    (Send demoWorld demoWeb3 demoContract demoParams 0 "balanceOf" (some [.str "0x01"])).out
      = .ret ("0xabc0", none) :=
  have h := Send_submits_signed_transaction demoWorld demoWeb3 demoContract demoParams 0
    "balanceOf" (some [.str "0x01"]) "0xa1" "1" "0xf86b"
    ([0x70, 0xa0, 0x82, 0x31] ++ List.replicate 32 0) rfl rfl (by decide) rfl rfl
  ⟨h.1, h.2.2.1⟩

/-- C4, as stated, fails: with a signer that returns an error, both `Send` and
`TransferEth` still call `EthSendRawTransaction` (on the empty string the signer
returned) and return the node's answer with a nil error. -/
theorem signing_failure_is_broadcast :
    (brokenSignerWorld.SignTx "0xa1" "1"
      ⟨0, demoContract.address, 0, 21000, 1000000000,
        [0x70, 0xa0, 0x82, 0x31] ++ List.replicate 32 0⟩).2 = some "signing failed" ∧
    (Send brokenSignerWorld demoWeb3 demoContract demoParams 0 "balanceOf"
      (some [.str "0x01"])).out = .ret ("0xabc0", none) ∧
    (Send brokenSignerWorld demoWeb3 demoContract demoParams 0 "balanceOf"
      (some [.str "0x01"])).trace =
      [.pack "balanceOf" [.str "0x01"],
       .signTx "0xa1" "1" ⟨0, demoContract.address, 0, 21000, 1000000000,
         [0x70, 0xa0, 0x82, 0x31] ++ List.replicate 32 0⟩,
       .sendRaw ""] ∧
    (brokenSignerWorld.SignTx "0xa1" "1"
      ⟨0, brokenSignerWorld.HexToAddress "0x00000000000000000000000000000000000000aa", 5,
        21000, 1000000000, []⟩).2 = some "signing failed" ∧
    (TransferEth brokenSignerWorld demoWeb3 demoParams
      "0x00000000000000000000000000000000000000aa" 5).out = .ret ("0xabc0", none) ∧
    (TransferEth brokenSignerWorld demoWeb3 demoParams
      "0x00000000000000000000000000000000000000aa" 5).trace =
      [.signTx "0xa1" "1"
         ⟨0, brokenSignerWorld.HexToAddress "0x00000000000000000000000000000000000000aa", 5,
           21000, 1000000000, []⟩,
       .sendRaw ""] :=
  ⟨rfl, rfl, rfl, rfl, rfl, rfl⟩

/-- C4, amended: for a registered `FromAddress` and a chain id returned by
`GetChainId`, the error result of `helper.SignTx` plays no part: `Send` (once
the packer has returned `data`) and `TransferEth` each call
`EthSendRawTransaction` exactly once, on the first result of the signer whatever
its second result is, and return exactly what that call returns. -/
theorem signing_error_is_dropped (world : World) (w : Web3) (c : Contract)
    (params : SendTxParams) (value : Int) (functionName : String) (args : Variadic)
    (to_ : String) (key chainId : String)
    (hkey : mapLookup w.privateKeyMap (world.ToLower params.FromAddress) = some key)
    (hchain : GetChainId world = .ret chainId) :
    (∀ data : Bytes, world.Pack c.abi functionName (args.getD []) = .ok data →
      (Send world w c params value functionName args).out
        = .ret (world.EthSendRawTransaction (world.SignTx key chainId
            ⟨params.Nonce, c.address, value, Uint64 params.GasLimit, params.GasPrice,
              data⟩).1) ∧
      (Send world w c params value functionName args).trace.filter Event.isSendRaw
        = [.sendRaw (world.SignTx key chainId
            ⟨params.Nonce, c.address, value, Uint64 params.GasLimit, params.GasPrice,
              data⟩).1]) ∧
    (TransferEth world w params to_ value).out
      = .ret (world.EthSendRawTransaction (world.SignTx key chainId
          ⟨params.Nonce, world.HexToAddress to_, value, Uint64 params.GasLimit,
            params.GasPrice, []⟩).1) ∧
    (TransferEth world w params to_ value).trace.filter Event.isSendRaw
      = [.sendRaw (world.SignTx key chainId
          ⟨params.Nonce, world.HexToAddress to_, value, Uint64 params.GasLimit,
            params.GasPrice, []⟩).1] := by
  refine ⟨?_, ?_⟩
  · intro data hpack
    rw [Send_past_packer world w c params value functionName args key chainId data hkey hpack
      hchain]
    simp [Event.isSendRaw]
  · rw [TransferEth_run world w params to_ value chainId hchain, hkey]
    simp [Event.isSendRaw]

/-- With a signer that always fails, both write operations still submit once. -/
theorem signing_error_is_dropped_witness :
    (Send brokenSignerWorld demoWeb3 demoContract demoParams 0 "balanceOf"
      (some [.str "0x01"])).trace.filter Event.isSendRaw = [.sendRaw ""] ∧
    (TransferEth brokenSignerWorld demoWeb3 demoParams
      "0x00000000000000000000000000000000000000aa" 5).trace.filter Event.isSendRaw
      = [.sendRaw ""] :=
  have h := signing_error_is_dropped brokenSignerWorld demoWeb3 demoContract demoParams 0
    "balanceOf" (some [.str "0x01"]) "0x00000000000000000000000000000000000000aa" "0xa1" "1"
    rfl rfl
  ⟨(h.1 ([0x70, 0xa0, 0x82, 0x31] ++ List.replicate 32 0) rfl).2, h.2.2⟩

/-- C5: for a function name `f` bound to method `m` in the interface, `Call(f)`
without arguments makes exactly one external call, an `EthCall` at block tag
`latest` to the contract address from the zero address, whose `Data` is `0x`
followed by the hexadecimal form of the selector `m.ID()` and nothing more (ten
characters when the selector has four bytes); the packer is not called, and
`Call` returns what `EthCall` returns. -/
theorem Call_without_args_sends_selector (world : World) (w : Web3) (c : Contract)
    (f : String) (m : Method) (h : mapLookup c.abi.Methods f = some m) :
    (Call world w c f none).trace =
      [.ethCall ⟨world.AddressString c.address, "0x0000000000000000000000000000000000000000",
        "0x" ++ String.mk (hexChars (world.ID m))⟩ "latest"] ∧
    (Call world w c f none).out =
      .ret (world.EthCall ⟨world.AddressString c.address,
        "0x0000000000000000000000000000000000000000",
        "0x" ++ String.mk (hexChars (world.ID m))⟩ "latest") ∧
    (Call world w c f none).trace.any Event.isPack = false ∧
    ((world.ID m).length = 4 →
      ("0x" ++ String.mk (hexChars (world.ID m))).length = 10) := by
  have hlen : ∀ bs : Bytes, (hexChars bs).length = 2 * bs.length := by
    intro bs
    induction bs with
    | nil => rfl
    | cons b rest ih => simp [hexChars, ih]; omega
  refine ⟨?_, ?_, ?_, ?_⟩
  · simp [Call, HistoryCall, ABI.method, h, sprintf0x]
  · simp [Call, HistoryCall, ABI.method, h, sprintf0x]
  · simp [Call, HistoryCall, Event.isPack]
  · intro h4
    have h2 : ("0x" : String).length = 2 := by decide
    rw [String.length_append, h2]
    show 2 + (hexChars (world.ID m)).length = 10
    rw [hlen, h4]

/-- The call `Call("totalSupply")` in the example world sends the bare selector. -/
theorem Call_without_args_sends_selector_witness :
    (Call demoWorld demoWeb3 demoContract "totalSupply" none).trace =
      [.ethCall ⟨"0x00000000000000000000000000000000000000aA",
        "0x0000000000000000000000000000000000000000", "0x18160ddd"⟩ "latest"] ∧
    (Call demoWorld demoWeb3 demoContract "totalSupply" none).out = .ret ("0x01", none) :=
  have h := Call_without_args_sends_selector demoWorld demoWeb3 demoContract "totalSupply"
    ⟨"totalSupply", []⟩ rfl
  ⟨h.1, h.2.1⟩

/-- C6 fails on the code: `Call` hands its argument slice to `HistoryCall` as one
argument, so the packer receives a one-element list holding the slice.  For
`balanceOf` with one address the packer rejects that list and `Call` returns its
error without any RPC request, while `HistoryCall("latest", ...)` with the same
argument packs the address itself and issues the `EthCall`. -/
theorem Call_passes_args_as_one_slice :
    (∀ (world : World) (w : Web3) (c : Contract) (f : String) (xs : List Val),
      (Call world w c f (some xs)).trace.head? = some (.pack f [.slice xs]) ∧
      (HistoryCall world w c "latest" f (some xs)).trace.head? = some (.pack f xs)) ∧
    (Call demoWorld demoWeb3 demoContract "balanceOf" (some [.str "0x01"])).trace
      = [.pack "balanceOf" [.slice [.str "0x01"]]] ∧
    (Call demoWorld demoWeb3 demoContract "balanceOf" (some [.str "0x01"])).out
      = .ret ("", some "abi: cannot use argument as type") ∧
    (HistoryCall demoWorld demoWeb3 demoContract "latest" "balanceOf"
      (some [.str "0x01"])).trace
      = [.pack "balanceOf" [.str "0x01"],
         .ethCall ⟨"0x00000000000000000000000000000000000000aA",
           "0x0000000000000000000000000000000000000000",
           sprintf0x ([0x70, 0xa0, 0x82, 0x31] ++ List.replicate 32 0)⟩ "latest"] ∧
    (HistoryCall demoWorld demoWeb3 demoContract "latest" "balanceOf"
      (some [.str "0x01"])).out = .ret ("0x01", none) ∧
    (Call demoWorld demoWeb3 demoContract "balanceOf" (some [.str "0x01"])).out
      ≠ (HistoryCall demoWorld demoWeb3 demoContract "latest" "balanceOf"
          (some [.str "0x01"])).out := by
  refine ⟨?_, rfl, rfl, rfl, rfl, by decide⟩
  intro world w c f xs
  constructor
  · simp only [Call, HistoryCall]
    cases world.Pack c.abi f [Val.slice xs] <;> rfl
  · simp only [HistoryCall]
    cases world.Pack c.abi f xs <;> rfl

/-- C7 fails on the code: for a name that is not in the interface, `Call` and
`HistoryCall` without arguments skip the packer, take the selector of the zero
`Method`, issue the `EthCall` and return the node's answer with a nil error.
With a non-nil argument list, and in `Send`, the packer is asked and its error
is returned before any RPC request. -/
theorem Call_unknown_name_without_args_reaches_node :
    mapLookup demoContract.abi.Methods "missing" = none ∧
    (Call demoWorld demoWeb3 demoContract "missing" none).trace
      = [.ethCall ⟨"0x00000000000000000000000000000000000000aA",
          "0x0000000000000000000000000000000000000000", "0x861731d5"⟩ "latest"] ∧
    (Call demoWorld demoWeb3 demoContract "missing" none).out = .ret ("0x01", none) ∧
    (HistoryCall demoWorld demoWeb3 demoContract "0x10" "missing" none).trace
      = [.ethCall ⟨"0x00000000000000000000000000000000000000aA",
          "0x0000000000000000000000000000000000000000", "0x861731d5"⟩ "0x10"] ∧
    (HistoryCall demoWorld demoWeb3 demoContract "0x10" "missing" none).out
      = .ret ("0x01", none) ∧
    (HistoryCall demoWorld demoWeb3 demoContract "0x10" "missing" (some [])).trace
      = [.pack "missing" []] ∧
    (HistoryCall demoWorld demoWeb3 demoContract "0x10" "missing" (some [])).out
      = .ret ("", some "method not found") ∧
    (Send demoWorld demoWeb3 demoContract demoParams 0 "missing" none).trace
      = [.pack "missing" []] ∧
    (Send demoWorld demoWeb3 demoContract demoParams 0 "missing" none).out
      = .ret ("", some "method not found") :=
  ⟨rfl, rfl, rfl, rfl, rfl, rfl, rfl, rfl, rfl⟩

/-- C8, as stated, fails: for an address string that is not a canonical
address, `NewContract` returns a contract and a nil error. -/
theorem NewContract_accepts_malformed_address :
    isCanonicalAddress "not-an-address" = false ∧
    NewContract demoWorld "demo" "not-an-address"
      = (some ⟨demoABI, ⟨List.replicate 20 0⟩⟩, none) :=
  ⟨rfl, rfl⟩

/-- C8, amended: `NewContract` returns a non-nil error, and then no contract,
exactly when `abi.JSON` rejects the interface description; when `abi.JSON`
accepts it, every address string, canonical or not, yields a nil error and a
contract bound to `common.HexToAddress(address)`. -/
theorem NewContract_fails_only_on_bad_abi (world : World) (abiStr address : String) :
    ((NewContract world abiStr address).2 ≠ none ↔ ∃ e, world.JSON abiStr = .error e) ∧
    ((NewContract world abiStr address).1 = none ↔ ∃ e, world.JSON abiStr = .error e) ∧
    (∀ abi, world.JSON abiStr = .ok abi →
      NewContract world abiStr address = (some ⟨abi, world.HexToAddress address⟩, none)) := by
  unfold NewContract
  cases h : world.JSON abiStr with
  | error e => simp
  | ok abi => simp

/-- The example world binds a contract for a good interface and refuses a bad one. -/
theorem NewContract_fails_only_on_bad_abi_witness :
    NewContract demoWorld "demo" "0x00000000000000000000000000000000000000aa"
      = (some ⟨demoABI, ⟨List.replicate 19 0 ++ [0xaa]⟩⟩, none) ∧
    (NewContract demoWorld "not json" "0x00000000000000000000000000000000000000aa").2 ≠ none :=
  ⟨(NewContract_fails_only_on_bad_abi demoWorld "demo"
      "0x00000000000000000000000000000000000000aa").2.2 demoABI rfl,
   (NewContract_fails_only_on_bad_abi demoWorld "not json"
      "0x00000000000000000000000000000000000000aa").1.mpr ⟨"invalid character", rfl⟩⟩

/-- C9: `GetChainId` returns `"1"` when `NETWORK` is exactly `mainnet`, `"42"` when
it is exactly `kovan`, and for every other value, the empty one of an unset
variable included, ends the process through `logrus.Fatalf` and returns no chain
id at all. -/
theorem GetChainId_by_network (world : World) :
    (Getenv world.NETWORK = "mainnet" → GetChainId world = .ret "1") ∧
    (Getenv world.NETWORK = "kovan" → GetChainId world = .ret "42") ∧
    (Getenv world.NETWORK ≠ "mainnet" → Getenv world.NETWORK ≠ "kovan" →
      GetChainId world = .exit (Getenv world.NETWORK ++ " network not support") ∧
      ∀ chainId : String, GetChainId world ≠ .ret chainId) := by
  refine ⟨?_, ?_, ?_⟩
  · intro h
    simp [GetChainId, h]
  · intro h
    simp [GetChainId, h]
  · intro h1 h2
    simp [GetChainId, h1, h2]

/-- The four kinds of `NETWORK` value: `mainnet`, `kovan`, unset, anything else. -/
theorem GetChainId_by_network_witness :
    GetChainId demoWorld = .ret "1" ∧
    GetChainId { demoWorld with NETWORK := some "kovan" } = .ret "42" ∧
    GetChainId { demoWorld with NETWORK := none } = .exit " network not support" ∧
    GetChainId { demoWorld with NETWORK := some "Mainnet" } ≠ .ret "1" :=
  ⟨(GetChainId_by_network demoWorld).1 rfl,
   (GetChainId_by_network { demoWorld with NETWORK := some "kovan" }).2.1 rfl,
   ((GetChainId_by_network { demoWorld with NETWORK := none }).2.2
      (by decide) (by decide)).1,
   ((GetChainId_by_network { demoWorld with NETWORK := some "Mainnet" }).2.2
      (by decide) (by decide)).2 "1"⟩

/-- C10 fails on the code: the fallback 30 is returned when the fetch itself
fails, but when the fetch succeeds with a body that is not JSON the error of
`json.Unmarshal` is not looked at, `Fast` keeps its zero value and the function
returns `int64(0.0 / 10) = 0`.  A well-formed body with `fast` 123.4 gives 12. -/
theorem GetGasPriceGwei_malformed_body_gives_zero :
    demoWorld.Get = ("<html>busy</html>", none) ∧
    demoWorld.Unmarshal "<html>busy</html>" GasData.zero
      = (GasData.zero, some "invalid character looking for beginning of value") ∧
    GetGasPriceGwei demoWorld = 0 ∧
    GetGasPriceGwei { demoWorld with Get := ("", some "dial tcp: i/o timeout") } = 30 ∧
    GetGasPriceGwei { demoWorld with Get := ("\x7b\"fast\": 123.4\x7d", none) } = 12 :=
  ⟨rfl, rfl, rfl, rfl, rfl⟩

end GoWeb3
